import Mathlib

/-!
# Farm-management system: verification of the persistence and reporting layer

Shallow embedding of the data model and operations of a farm record-keeping
application (source files `app.py`, `database.py`, `db_utils.py`).

Modelling conventions:
* Python `datetime.date` values are represented as natural-number day counts
  (proleptic-Gregorian rata die); `timedelta(days = n)` is `+ n`.
  `rataDie` converts a civil `(year, month, day)` triple to the day count,
  mirroring Python's date arithmetic.
* Python `float` fields (yields, wages, costs, quantities) are represented
  as rationals `ℚ`; pandas `NaN` resulting from an unmatched left-join is
  represented with `Option`.
* The SQLAlchemy session plus database is a `Store` value threaded
  explicitly; a successful commit returns the new store, a failed commit
  (unique-constraint violation plus rollback) returns the old store with an
  error value.
* `db.query(M).all()` enumerates rows in insertion order.
-/

namespace Farm

/-! ## Dates (Python `datetime.date` / `timedelta`) -/

/-- Gregorian leap-year rule, as used by Python's `datetime`. -/
def isLeapYear (y : Nat) : Bool :=
  (y % 4 == 0 && y % 100 != 0) || y % 400 == 0

/-- Length of month `m` (1-based) in year `y`. -/
def monthLen (y m : Nat) : Nat :=
  match m with
  | 1 => 31
  | 2 => if isLeapYear y then 29 else 28
  | 3 => 31
  | 4 => 30
  | 5 => 31
  | 6 => 30
  | 7 => 31
  | 8 => 31
  | 9 => 30
  | 10 => 31
  | 11 => 30
  | 12 => 31
  | _ => 0

/-- Days in year `y` strictly before month `m`. -/
def daysBeforeMonth (y m : Nat) : Nat :=
  (List.range (m - 1)).foldl (fun acc i => acc + monthLen y (i + 1)) 0

/-- Proleptic-Gregorian day number of the civil date `(y, m, d)`
(the count Python's `date.toordinal` uses). Adding `n` to a day number is
Python's `date + timedelta(days = n)`. -/
def rataDie (y m d : Nat) : Nat :=
  365 * (y - 1) + (y - 1) / 4 + (y - 1) / 400 - (y - 1) / 100 + daysBeforeMonth y m + d

/-! ## Schema: `Animal` (`database.py` lines 55-75) and its listing

`animals` has an `Integer` primary key `id` plus a `unique` natural key
`animal_id`; `photo_path` is never supplied by the registration form. -/

/-- Field values supplied to `Animal(**animal_data)` by the registration form
(`app.py` lines 198-211). -/
structure AnimalData where
  animal_id : String
  name : String
  ear_tag : String
  dob : Nat
  sex : String
  breed : String
  lifecycle_stage : String
  sire : String
  dam : String
  registration_date : Nat
  status : String
  notes : String
  deriving DecidableEq, Repr

/-- A stored row of the `animals` table (`database.py` lines 55-75):
the form fields plus the assigned integer primary key; `photo_path`
stays `NULL` on insert. -/
structure Animal where
  id : Nat
  animal_id : String
  name : String
  ear_tag : String
  dob : Nat
  sex : String
  breed : String
  lifecycle_stage : String
  sire : String
  dam : String
  registration_date : Nat
  status : String
  notes : String
  photo_path : Option String
  deriving DecidableEq, Repr

/-- A row of the listing produced by `get_all_animals`
(`db_utils.py` lines 10-32): the twelve projected columns, in order. -/
structure AnimalRow where
  animal_id : String
  name : String
  ear_tag : String
  dob : Nat
  sex : String
  breed : String
  lifecycle_stage : String
  sire : String
  dam : String
  registration_date : Nat
  status : String
  notes : String
  deriving DecidableEq, Repr

/-- A stored row of `breeding_records` (`database.py` lines 91-107).
`expected_calving`, `actual_calving`, `calf_id`, `calf_sex` are nullable. -/
structure BreedingRecord where
  id : Nat
  animal_id : String
  heat_date : Nat
  insemination_date : Nat
  insemination_type : String
  bull_id : String
  pregnancy_confirmed : String
  expected_calving : Option Nat
  actual_calving : Option Nat
  calf_id : Option String
  calf_sex : Option String
  notes : String
  deriving DecidableEq, Repr

/-- Field values supplied to `BreedingRecord(**breeding_data)` by the
breeding form (`app.py` lines 371-383). -/
structure BreedingData where
  animal_id : String
  heat_date : Nat
  insemination_date : Nat
  insemination_type : String
  bull_id : String
  pregnancy_confirmed : String
  expected_calving : Option Nat
  actual_calving : Option Nat
  calf_id : Option String
  calf_sex : Option String
  notes : String
  deriving DecidableEq, Repr

/-- The database state relevant to the verified operations: the rows of the
`animals` and `breeding_records` tables in insertion order, together with
the sequence counters that assign integer primary keys. -/
structure Store where
  animals : List Animal
  next_animal_id : Nat
  breeding_records : List BreedingRecord
  next_breeding_id : Nat
  deriving DecidableEq, Repr

/-- Error taxonomy of the persistence layer: a unique-key collision
(SQLAlchemy `IntegrityError` on the `unique=True` column, surfaced by the
spec as `DuplicateKeyError`). -/
inductive DbError where
  | duplicateKey
  deriving DecidableEq, Repr

/-- `add_animal` (`db_utils.py` lines 34-39): construct an `Animal` from the
form fields, `db.add`, `db.commit`. The commit enforces the `unique=True`
constraint on `animal_id`; on violation the transaction is rolled back
(`app.py` line 218) leaving the store as it was. -/
def add_animal (db : Store) (animal_data : AnimalData) : Store × Except DbError Animal :=
  if db.animals.any (fun a => a.animal_id == animal_data.animal_id) then
    (db, .error .duplicateKey)
  else
    let animal : Animal :=
      { id := db.next_animal_id
        animal_id := animal_data.animal_id
        name := animal_data.name
        ear_tag := animal_data.ear_tag
        dob := animal_data.dob
        sex := animal_data.sex
        breed := animal_data.breed
        lifecycle_stage := animal_data.lifecycle_stage
        sire := animal_data.sire
        dam := animal_data.dam
        registration_date := animal_data.registration_date
        status := animal_data.status
        notes := animal_data.notes
        photo_path := none }
    ({ db with animals := db.animals ++ [animal],
               next_animal_id := db.next_animal_id + 1 },
     .ok animal)

/-- Projection of a stored animal to its listing row
(`db_utils.py` lines 18-31). -/
def animalToRow (a : Animal) : AnimalRow :=
  { animal_id := a.animal_id
    name := a.name
    ear_tag := a.ear_tag
    dob := a.dob
    sex := a.sex
    breed := a.breed
    lifecycle_stage := a.lifecycle_stage
    sire := a.sire
    dam := a.dam
    registration_date := a.registration_date
    status := a.status
    notes := a.notes }

/-- `get_all_animals` (`db_utils.py` lines 10-32): list every stored animal
in insertion order, projected to the twelve listing columns (the empty
store yields the empty table). -/
def get_all_animals (db : Store) : List AnimalRow :=
  db.animals.map animalToRow

/-- The listing row corresponding to a registration-form input. -/
def animalDataRow (a : AnimalData) : AnimalRow :=
  { animal_id := a.animal_id
    name := a.name
    ear_tag := a.ear_tag
    dob := a.dob
    sex := a.sex
    breed := a.breed
    lifecycle_stage := a.lifecycle_stage
    sire := a.sire
    dam := a.dam
    registration_date := a.registration_date
    status := a.status
    notes := a.notes }

/-- The empty database (fresh tables, sequence counters at 1). -/
def emptyStore : Store :=
  { animals := [], next_animal_id := 1, breeding_records := [], next_breeding_id := 1 }

end Farm

namespace Farm

/-! ## Theorems for claims C1 and C2 -/

/-- **C1.** For every valid animal input (its `animal_id` not already
present), `add_animal` succeeds, returning the stored record whose fields
equal the input plus the assigned primary key, and `get_all_animals`
afterwards lists exactly the previous listing, unchanged and in insertion
order, followed by the one new row whose fields equal the input. -/
theorem append_then_list_animals (db : Store) (a : AnimalData)
    (h : ∀ x ∈ db.animals, x.animal_id ≠ a.animal_id) :
    (add_animal db a).2 =
      .ok { id := db.next_animal_id
            animal_id := a.animal_id
            name := a.name
            ear_tag := a.ear_tag
            dob := a.dob
            sex := a.sex
            breed := a.breed
            lifecycle_stage := a.lifecycle_stage
            sire := a.sire
            dam := a.dam
            registration_date := a.registration_date
            status := a.status
            notes := a.notes
            photo_path := none } ∧
    get_all_animals (add_animal db a).1 = get_all_animals db ++ [animalDataRow a] := by
  have hcond : db.animals.any (fun x => x.animal_id == a.animal_id) = false := by
    simp only [List.any_eq_false, beq_iff_eq]
    exact h
  constructor
  · simp [add_animal, hcond]
  · simp [add_animal, hcond, get_all_animals, animalToRow, animalDataRow]

/-- Sample registration-form input used by the concrete-input witnesses. -/
def sampleAnimalData : AnimalData :=
  { animal_id := "A1"
    name := "Ganga"
    ear_tag := "E-7"
    dob := rataDie 2021 6 15
    sex := "Female"
    breed := "Gir"
    lifecycle_stage := "Adult Cow (3+ years)"
    sire := "B2"
    dam := "A0"
    registration_date := rataDie 2024 1 1
    status := "Active"
    notes := "healthy" }

/-- **C1 witness.** On the empty store and the sample input the uniqueness
hypothesis holds, and append-then-list yields the old listing plus the one
new row. -/
theorem append_then_list_animals_witness :
    (∀ x ∈ emptyStore.animals, x.animal_id ≠ sampleAnimalData.animal_id) ∧
    get_all_animals (add_animal emptyStore sampleAnimalData).1 =
      get_all_animals emptyStore ++ [animalDataRow sampleAnimalData] :=
  ⟨by simp [emptyStore],
   (append_then_list_animals emptyStore sampleAnimalData (by simp [emptyStore])).2⟩

/-- **C2.** Appending an animal whose `animal_id` already exists fails with
`DuplicateKeyError` and returns the store exactly as it was: no record
added, no existing record overwritten. -/
theorem duplicate_append_rejected (db : Store) (a : AnimalData)
    (h : ∃ x ∈ db.animals, x.animal_id = a.animal_id) :
    add_animal db a = (db, .error .duplicateKey) := by
  have hcond : db.animals.any (fun x => x.animal_id == a.animal_id) = true := by
    simp only [List.any_eq_true, beq_iff_eq]
    exact h
  simp [add_animal, hcond]

/-- The store holding the single registered animal `A1`. -/
def storeWithA1 : Store := (add_animal emptyStore sampleAnimalData).1

/-- **C2 witness.** Registering `animal_id = "A1"` twice: the second append
fails with `DuplicateKeyError` and the store is unchanged. -/
theorem duplicate_append_rejected_witness :
    (∃ x ∈ storeWithA1.animals, x.animal_id = sampleAnimalData.animal_id) ∧
    add_animal storeWithA1 sampleAnimalData = (storeWithA1, .error .duplicateKey) :=
  ⟨by decide,
   duplicate_append_rejected storeWithA1 sampleAnimalData (by decide)⟩

/-! ## Breeding records: creation, calving update, index lookup -/

/-- `add_breeding_record` (`db_utils.py` lines 90-95): construct the record
from the form fields, assign the next primary key, append, commit (there is
no unique constraint besides the primary key, so this never fails). -/
def add_breeding_record (db : Store) (record_data : BreedingData) : Store × BreedingRecord :=
  let record : BreedingRecord :=
    { id := db.next_breeding_id
      animal_id := record_data.animal_id
      heat_date := record_data.heat_date
      insemination_date := record_data.insemination_date
      insemination_type := record_data.insemination_type
      bull_id := record_data.bull_id
      pregnancy_confirmed := record_data.pregnancy_confirmed
      expected_calving := record_data.expected_calving
      actual_calving := record_data.actual_calving
      calf_id := record_data.calf_id
      calf_sex := record_data.calf_sex
      notes := record_data.notes }
  ({ db with breeding_records := db.breeding_records ++ [record],
             next_breeding_id := db.next_breeding_id + 1 },
   record)

/-- The seed of the expected-calving `st.date_input` widget
(`app.py` line 362): `insemination_date + timedelta(days=283)`. The widget
returns this value only while the user has not edited it. -/
def expectedCalvingSeed (insemination_date : Nat) : Nat :=
  insemination_date + 283

/-- The `expected_calving` value stored by the breeding form
(`app.py` lines 358-363): `None` unless `pregnancy_confirmed == "Yes"`;
when `"Yes"`, whatever the date widget returns is stored —
`widget_value` is an arbitrary user-chosen date, equal to
`expectedCalvingSeed insemination_date` exactly when the widget is left
untouched. -/
def expectedCalvingStored (pregnancy_confirmed : String) (widget_value : Nat) : Option Nat :=
  if pregnancy_confirmed == "Yes" then some widget_value else none

/-- The `breeding_data` dict built by the form (`app.py` lines 371-383):
`actual_calving`, `calf_id`, `calf_sex` start as `None`; `expected_calving`
is the widget's returned value when pregnancy is confirmed. -/
def breedingFormData (animal_id : String) (heat_date insemination_date : Nat)
    (insemination_type bull_id pregnancy_confirmed : String) (widget_value : Nat)
    (notes : String) : BreedingData :=
  { animal_id := animal_id
    heat_date := heat_date
    insemination_date := insemination_date
    insemination_type := insemination_type
    bull_id := bull_id
    pregnancy_confirmed := pregnancy_confirmed
    expected_calving := expectedCalvingStored pregnancy_confirmed widget_value
    actual_calving := none
    calf_id := none
    calf_sex := none
    notes := notes }

/-- The `update_data` dict of the calving-update form
(`app.py` lines 426-430): exactly the three calving fields. -/
structure CalvingUpdate where
  actual_calving : Nat
  calf_id : String
  calf_sex : String
  deriving DecidableEq, Repr

/-- `setattr(record, key, value)` for each of the three calving-update
keys (`db_utils.py` lines 100-101 at the `app.py` line 426 call site). -/
def applyCalvingUpdate (r : BreedingRecord) (upd : CalvingUpdate) : BreedingRecord :=
  { r with actual_calving := some upd.actual_calving
           calf_id := some upd.calf_id
           calf_sex := some upd.calf_sex }

/-- Replace the first element satisfying `p` by its image under `f`
(in-place mutation of the row returned by `.filter(...).first()`). -/
def updateFirst (p : α → Bool) (f : α → α) : List α → List α
  | [] => []
  | x :: xs => if p x then f x :: xs else x :: updateFirst p f xs

/-- `update_breeding_record` (`db_utils.py` lines 97-104): look up the first
record with the given primary key; if found, set the supplied fields on it,
commit, and return it; if absent, do nothing and return `None` (no
exception is raised). -/
def update_breeding_record (db : Store) (record_id : Nat) (upd : CalvingUpdate) :
    Store × Option BreedingRecord :=
  match db.breeding_records.find? (fun r => r.id == record_id) with
  | none => (db, none)
  | some r =>
      ({ db with breeding_records :=
           (updateFirst (fun x => x.id == record_id)
             (fun x => applyCalvingUpdate x upd) db.breeding_records) },
       some (applyCalvingUpdate r upd))

/-- `get_breeding_record_by_index` (`db_utils.py` lines 367-371): fetch all
breeding records; if the index is in bounds return the record at that
position, otherwise return `None`. -/
def get_breeding_record_by_index (db : Store) (index : Nat) : Option BreedingRecord :=
  let records := db.breeding_records
  if index < records.length then records.get? index else none

/-- Mapping a projection that `f` preserves over `updateFirst p f`
changes nothing. -/
theorem updateFirst_map_eq {α β : Type} (p : α → Bool) (f : α → α) (g : α → β)
    (hg : ∀ x, g (f x) = g x) (l : List α) :
    (updateFirst p f l).map g = l.map g := by
  induction l with
  | nil => rfl
  | cons x xs ih =>
    simp only [updateFirst]
    split
    · simp [hg]
    · simp [ih]

/-- **C4 counterexample.** A breeding record created with
`pregnancy_confirmed = "Yes"`, insemination date 2024-01-01, but the
expected-calving widget moved off its seed (the user picks 2024-11-01)
stores the user's date — not `insemination_date + 283` days, refuting the
claim that every confirmed record stores `insemination_date + 283`. -/
theorem expected_calving_override_refutes :
    ((add_breeding_record emptyStore
        (breedingFormData "A1" (rataDie 2023 12 20) (rataDie 2024 1 1)
          "Artificial Insemination (AI)" "B9" "Yes" (rataDie 2024 11 1)
          "")).2).expected_calving
      ≠ some (rataDie 2024 1 1 + 283) := by decide

/-- **C4 (amended).** A breeding record created with `pregnancy_confirmed =
"Yes"` stores as `expected_calving` the value returned by the date widget,
whose seed is `insemination_date + 283` days — when the widget is left at
its seed, the record stores exactly `insemination_date + 283`. The stored
value is fixed at creation time: the later calving update changes no
stored `expected_calving`. Concretely, `2024-01-01 + 283` days is
`2024-10-10`. -/
theorem breeding_expected_calving (db : Store) (aid : String) (heat insem : Nat)
    (ity bull nts : String) (w : Nat) :
    ((add_breeding_record db
        (breedingFormData aid heat insem ity bull "Yes" w nts)).2).expected_calving
        = some w
  ∧ ((add_breeding_record db
        (breedingFormData aid heat insem ity bull "Yes"
          (expectedCalvingSeed insem) nts)).2).expected_calving
        = some (insem + 283)
  ∧ (∀ (db₂ : Store) (rid : Nat) (upd : CalvingUpdate),
        ((update_breeding_record db₂ rid upd).1).breeding_records.map
            (fun r => r.expected_calving)
          = db₂.breeding_records.map (fun r => r.expected_calving))
  ∧ rataDie 2024 1 1 + 283 = rataDie 2024 10 10 := by
  refine ⟨?_, ?_, ?_, by decide⟩
  · simp [add_breeding_record, breedingFormData, expectedCalvingStored]
  · simp [add_breeding_record, breedingFormData, expectedCalvingStored,
      expectedCalvingSeed]
  · intro db₂ rid upd
    unfold update_breeding_record
    cases h : db₂.breeding_records.find? (fun r => r.id == rid) with
    | none => rfl
    | some r =>
      simpa using updateFirst_map_eq (fun x => x.id == rid)
        (fun x => applyCalvingUpdate x upd) (fun r => r.expected_calving)
        (fun x => rfl) db₂.breeding_records

/-- Sample calving-update form values. -/
def sampleCalvingUpdate : CalvingUpdate :=
  { actual_calving := rataDie 2024 10 12, calf_id := "C1", calf_sex := "Female" }

/-- **C7 counterexample.** Updating a breeding record whose key is absent
(the empty store, key 1) does not fail with `NotFoundError`: the call
silently returns `None`, leaving the store unchanged — exactly the
behaviour the claim rules out. -/
theorem update_missing_key_returns_none :
    update_breeding_record emptyStore 1 sampleCalvingUpdate = (emptyStore, none) := rfl

/-- The projection of a breeding record to its non-calving fields. -/
def nonCalvingFields (r : BreedingRecord) :
    Nat × String × Nat × Nat × String × String × String × Option Nat × String :=
  (r.id, r.animal_id, r.heat_date, r.insemination_date, r.insemination_type,
   r.bull_id, r.pregnancy_confirmed, r.expected_calving, r.notes)

/-- **C7 (amended).** `update_breeding_record` touches only the calving
fields (`actual_calving`, `calf_id`, `calf_sex`): every other field of
every stored record is unchanged. When the key is present it returns the
updated record; when the key is absent it returns `None` — it does not
raise `NotFoundError` — and leaves the store unchanged. -/
theorem update_breeding_record_spec (db : Store) (rid : Nat) (upd : CalvingUpdate) :
    ((∀ r ∈ db.breeding_records, r.id ≠ rid) →
        update_breeding_record db rid upd = (db, none))
  ∧ (((update_breeding_record db rid upd).1).breeding_records.map nonCalvingFields
        = db.breeding_records.map nonCalvingFields)
  ∧ (∀ r, db.breeding_records.find? (fun x => x.id == rid) = some r →
        (update_breeding_record db rid upd).2 = some (applyCalvingUpdate r upd)) := by
  refine ⟨?_, ?_, ?_⟩
  · intro h
    have hfind : db.breeding_records.find? (fun r => r.id == rid) = none := by
      simp only [List.find?_eq_none, beq_iff_eq]
      exact h
    simp [update_breeding_record, hfind]
  · unfold update_breeding_record
    cases h : db.breeding_records.find? (fun r => r.id == rid) with
    | none => rfl
    | some r =>
      simpa using updateFirst_map_eq (fun x => x.id == rid)
        (fun x => applyCalvingUpdate x upd) nonCalvingFields
        (fun x => rfl) db.breeding_records
  · intro r hr
    simp [update_breeding_record, hr]

/-- The store holding one breeding record (primary key 1) for animal `A1`,
insemination on 2024-01-01, pregnancy confirmed. -/
def demoBreedingStore : Store :=
  (add_breeding_record emptyStore
    (breedingFormData "A1" (rataDie 2023 12 20) (rataDie 2024 1 1)
      "Artificial Insemination (AI)" "B9" "Yes"
      (expectedCalvingSeed (rataDie 2024 1 1)) "")).1

/-- The one record stored in `demoBreedingStore`. -/
def demoBreedingRecord : BreedingRecord :=
  (add_breeding_record emptyStore
    (breedingFormData "A1" (rataDie 2023 12 20) (rataDie 2024 1 1)
      "Artificial Insemination (AI)" "B9" "Yes"
      (expectedCalvingSeed (rataDie 2024 1 1)) "")).2

/-- **C7 witness.** On the one-record store: updating the absent key 2
returns the store unchanged with `None`; updating the present key 1
returns the record with its calving fields set. -/
theorem update_breeding_record_spec_witness :
    update_breeding_record demoBreedingStore 2 sampleCalvingUpdate = (demoBreedingStore, none)
  ∧ (update_breeding_record demoBreedingStore 1 sampleCalvingUpdate).2
      = some (applyCalvingUpdate demoBreedingRecord sampleCalvingUpdate) :=
  ⟨(update_breeding_record_spec demoBreedingStore 2 sampleCalvingUpdate).1 (by decide),
   (update_breeding_record_spec demoBreedingStore 1 sampleCalvingUpdate).2.2
     demoBreedingRecord (by decide)⟩

/-- **C10.** Looking up a breeding record by positional index returns the
record at that position whenever the index is strictly below the number of
stored records, and returns `None` (not an error) for every index at or
beyond that count. -/
theorem get_breeding_record_by_index_spec (db : Store) (index : Nat) :
    (∀ h : index < db.breeding_records.length,
        get_breeding_record_by_index db index
          = some (db.breeding_records.get ⟨index, h⟩))
  ∧ (db.breeding_records.length ≤ index →
        get_breeding_record_by_index db index = none) := by
  constructor
  · intro h
    simp [get_breeding_record_by_index, h, List.get?_eq_get h]
  · intro h
    simp [get_breeding_record_by_index, Nat.not_lt.mpr h]

/-- **C10 witness.** On the one-record store, index 0 returns the stored
record and index 1 returns `None`. -/
theorem get_breeding_record_by_index_spec_witness :
    get_breeding_record_by_index demoBreedingStore 0 = some demoBreedingRecord
  ∧ get_breeding_record_by_index demoBreedingStore 1 = none :=
  ⟨((get_breeding_record_by_index_spec demoBreedingStore 0).1 (by decide)).trans (by rfl),
   (get_breeding_record_by_index_spec demoBreedingStore 1).2 (by decide)⟩

/-! ## Startup and database availability (`database.py` lines 7-51,
`app.py` lines 16-139)

With no connection string, `get_engine` raises `ValueError`, which
`database.py` lines 45-51 catch at module level, leaving
`SessionLocal = None`; the `from database import SessionLocal` in `app.py`
therefore succeeds and `DATABASE_AVAILABLE` is `True` regardless of
configuration. The first `load_data_from_db` then calls `SessionLocal()`
on `None`, raising `TypeError`, caught at `app.py` line 126, and the app
halts via `st.stop()` (line 139). There is no in-memory fallback path. -/

/-- `get_database_url` (`database.py` lines 7-16): the Streamlit secret if
present, else the `DATABASE_URL` environment variable (possibly absent). -/
def get_database_url (secrets_url env_url : Option String) : Option String :=
  match secrets_url with
  | some u => some u
  | none => env_url

/-- The module-level `SessionLocal` (`database.py` lines 43-51): a session
factory bound to the configured engine, or `None` when no URL is
configured (the `ValueError` from `get_engine` is caught there). -/
def sessionLocal (url : Option String) : Option String :=
  match url with
  | none => none
  | some u => some u

/-- `DATABASE_AVAILABLE` (`app.py` lines 16-22): `True` iff
`from database import SessionLocal` raises no `ValueError`. Since
`database.py` catches the configuration `ValueError` itself, the import
always succeeds, whatever the configuration. -/
def database_available (url : Option String) : Bool :=
  match url with
  | none => true
  | some _ => true

/-- Outcome of the startup sequence (`app.py` lines 16-139). -/
inductive StartupOutcome where
  /-- Startup completed; the app runs against the configured database. -/
  | running (url : String)
  /-- Halted at the `DATABASE_AVAILABLE` guard (`app.py` line 56). -/
  | stoppedConfigPage
  /-- Halted because loading data raised (`app.py` line 139): with
  `SessionLocal = None`, `SessionLocal()` raises `TypeError`. -/
  | stoppedConnectionError
  deriving DecidableEq, Repr

/-- The startup sequence of `app.py` (lines 16-139): the availability
guard, then the initial `load_data_from_db`, each halting the script via
`st.stop()` on failure. -/
def app_startup (url : Option String) : StartupOutcome :=
  if database_available url = false then .stoppedConfigPage
  else
    match sessionLocal url with
    | none => .stoppedConnectionError
    | some u => .running u

/-- Whether any append operation is reachable after startup: every form
handler sits below the startup guards, so appends are possible exactly
when startup completes. -/
def startup_allows_appends (url : Option String) : Bool :=
  match app_startup url with
  | .running _ => true
  | _ => false

/-- **C3 counterexample.** With no connection string configured, startup
halts (`st.stop()`), so no append can run at all — there is no
process-lifetime in-memory fallback store accepting appends. -/
theorem no_fallback_when_unconfigured :
    startup_allows_appends (get_database_url none none) = false := rfl

/-- **C3 (amended).** When no connection string is configured, the import
still succeeds (`DATABASE_AVAILABLE` stays `True`), `SessionLocal` is
`None`, and startup halts with the connection-error page rather than
degrading to an in-memory store; with a configured URL startup completes.
-/
theorem startup_unconfigured_halts :
    database_available (get_database_url none none) = true
  ∧ sessionLocal (get_database_url none none) = none
  ∧ app_startup (get_database_url none none) = .stoppedConnectionError
  ∧ (∀ u : String, app_startup (some u) = .running u) := by
  refine ⟨rfl, rfl, rfl, fun u => rfl⟩

/-! ## Medicine inventory alerts (`app.py` lines 1084-1102) -/

/-- A row of the `medicine_inventory` listing (`db_utils.py`
lines 135-154). -/
structure MedicineRow where
  medicine_name : String
  category : String
  quantity : ℚ
  unit : String
  expiry_date : Nat
  cost_per_unit : Option ℚ
  supplier : String
  reorder_level : ℚ
  notes : String
  deriving DecidableEq, Repr

/-- The "expiring soon" alert filter (`app.py` lines 1084-1087): rows whose
`expiry_date` is at most `today + timedelta(days=30)` (inclusive). -/
def expiring_soon (inventory : List MedicineRow) (today : Nat) : List MedicineRow :=
  inventory.filter (fun m => m.expiry_date ≤ today + 30)

/-- The "low stock" alert filter (`app.py` lines 1094-1097): rows whose
`quantity` is at most `reorder_level` (inclusive). -/
def low_stock (inventory : List MedicineRow) : List MedicineRow :=
  inventory.filter (fun m => m.quantity ≤ m.reorder_level)

/-- **C8.** For every medicine-inventory table and every current date,
exactly the rows with `expiry_date ≤ today + 30` days (boundary included)
are flagged as expiring soon, and exactly the rows with
`quantity ≤ reorder_level` are flagged as low stock. -/
theorem medicine_alerts_spec (inventory : List MedicineRow) (today : Nat)
    (m : MedicineRow) :
    (m ∈ expiring_soon inventory today ↔ m ∈ inventory ∧ m.expiry_date ≤ today + 30)
  ∧ (m ∈ low_stock inventory ↔ m ∈ inventory ∧ m.quantity ≤ m.reorder_level) := by
  constructor
  · simp [expiring_soon, List.mem_filter]
  · simp [low_stock, List.mem_filter]

/-! ## Group-by / aggregation machinery

pandas `groupby(key)[col].sum()` produces one output row per distinct key,
keys sorted ascending, with the sum of the column over the matching input
rows. The membership theorems below are order-insensitive, so only the set
of keys matters for them; the sort mirrors pandas' default `sort=True`. -/

/-- Insert `x` into a (sorted) list, skipping it when already present. -/
def insertUnique [DecidableEq α] (le : α → α → Bool) (x : α) : List α → List α
  | [] => [x]
  | y :: ys => if x = y then y :: ys else if le x y then x :: y :: ys else y :: insertUnique le x ys

/-- The distinct keys of `xs`, arranged by `le` (pandas group keys). -/
def sortedKeys [DecidableEq α] (le : α → α → Bool) (xs : List α) : List α :=
  xs.foldr (insertUnique le) []

theorem mem_insertUnique [DecidableEq α] (le : α → α → Bool) (x a : α) (l : List α) :
    a ∈ insertUnique le x l ↔ a = x ∨ a ∈ l := by
  induction l with
  | nil => simp [insertUnique]
  | cons y ys ih =>
    simp only [insertUnique]
    split
    · rename_i hxy
      subst hxy
      simp only [List.mem_cons]
      tauto
    · split
      · simp
      · simp only [List.mem_cons, ih]
        tauto

theorem mem_sortedKeys [DecidableEq α] (le : α → α → Bool) (xs : List α) (a : α) :
    a ∈ sortedKeys le xs ↔ a ∈ xs := by
  induction xs with
  | nil => simp [sortedKeys]
  | cons x xs ih =>
    simp only [sortedKeys, List.foldr_cons] at *
    rw [mem_insertUnique, ih]
    simp

/-- Boolean `≤` on `Nat` (the ordering pandas uses for date group keys). -/
def natLe (a b : Nat) : Bool := a ≤ b

/-- Boolean byte-wise `≤` on character lists (lexicographic string order). -/
def strLeData : List Char → List Char → Bool
  | [], _ => true
  | _ :: _, [] => false
  | a :: as, b :: bs => if a = b then strLeData as bs else a.val ≤ b.val

/-- Lexicographic `≤` on strings (the ordering pandas uses for string
group keys). -/
def strLe (a b : String) : Bool := strLeData a.data b.data

/-- pandas `df.groupby(key)[col].sum()` as a list of
`(key, sum of col over matching rows)` pairs, one per distinct key. -/
def groupSumBy (key : α → Nat) (val : α → ℚ) (rows : List α) : List (Nat × ℚ) :=
  (sortedKeys natLe (rows.map key)).map
    (fun d => (d, ((rows.filter (fun r => key r == d)).map val).sum))

/-- `pd.merge(l, r, on=key, how="inner")` for keyed single-value frames:
keep the rows of `l` whose key also appears in `r`, pairing the values. -/
def innerJoinOnKey (l : List (Nat × ℚ)) (r : List (Nat × ℚ)) : List (Nat × ℚ × ℚ) :=
  l.filterMap (fun p => (r.lookup p.1).map (fun y => (p.1, p.2, y)))

/-- `List.lookup` over a frame built by mapping a value function over a key
list: found iff the key occurs, and then the value is determined. -/
theorem lookup_keyed_map (ks : List Nat) (f : Nat → ℚ) (d : Nat) :
    List.lookup d (ks.map (fun k => (k, f k)))
      = if d ∈ ks then some (f d) else none := by
  induction ks with
  | nil => simp
  | cons k ks ih =>
    simp only [List.map_cons, List.lookup_cons]
    by_cases h : d = k
    · subst h
      simp
    · have hbeq : (d == k) = false := beq_eq_false_iff_ne.mpr h
      simp [hbeq, ih, List.mem_cons, h]

theorem mem_groupSumBy {α : Type} (key : α → Nat) (val : α → ℚ) (rows : List α)
    (p : Nat × ℚ) :
    p ∈ groupSumBy key val rows ↔
      p.1 ∈ rows.map key
      ∧ p.2 = ((rows.filter (fun r => key r == p.1)).map val).sum := by
  unfold groupSumBy
  rw [List.mem_map]
  constructor
  · rintro ⟨d, hd, rfl⟩
    rw [mem_sortedKeys] at hd
    exact ⟨hd, rfl⟩
  · rintro ⟨h1, h2⟩
    refine ⟨p.1, (mem_sortedKeys _ _ _).mpr h1, ?_⟩
    cases p with
    | mk a b => exact congrArg (fun x => (a, x)) h2.symm

theorem lookup_groupSumBy {α : Type} (key : α → Nat) (val : α → ℚ) (rows : List α)
    (d : Nat) :
    List.lookup d (groupSumBy key val rows)
      = if d ∈ rows.map key
          then some (((rows.filter (fun r => key r == d)).map val).sum)
          else none := by
  unfold groupSumBy
  rw [lookup_keyed_map]
  by_cases h : d ∈ rows.map key
  · rw [if_pos ((mem_sortedKeys _ _ _).mpr h), if_pos h]
  · rw [if_neg (fun hc => h ((mem_sortedKeys _ _ _).mp hc)), if_neg h]

theorem mem_innerJoinOnKey (l r : List (Nat × ℚ)) (t : Nat × ℚ × ℚ) :
    t ∈ innerJoinOnKey l r ↔
      (t.1, t.2.1) ∈ l ∧ List.lookup t.1 r = some t.2.2 := by
  unfold innerJoinOnKey
  rw [List.mem_filterMap]
  constructor
  · rintro ⟨p, hp, hmap⟩
    cases hl : List.lookup p.1 r with
    | none => rw [hl] at hmap; simp at hmap
    | some y =>
      rw [hl] at hmap
      simp only [Option.map_some', Option.some_inj] at hmap
      subst hmap
      exact ⟨hp, hl⟩
  · rintro ⟨hmem, hlk⟩
    exact ⟨(t.1, t.2.1), hmem, by simp [hlk]⟩

/-! ## Feed-efficiency report (`app.py` lines 1891-1912) -/

/-- A row of the `feed_consumption` listing (`db_utils.py` lines 217-231). -/
structure FeedConsumptionRow where
  date : Nat
  feed_name : String
  quantity_kg : ℚ
  herd_size : Nat
  notes : String
  deriving DecidableEq, Repr

/-- A row of the `milk_records` listing (`db_utils.py` lines 41-57). -/
structure MilkRow where
  date : Nat
  animal_id : String
  session : String
  yield_litres : ℚ
  usage : String
  price_per_litre : Option ℚ
  notes : String
  deriving DecidableEq, Repr

/-- A row of the `feed_inventory` listing (`db_utils.py` lines 191-208). -/
structure FeedInventoryRow where
  feed_name : String
  category : String
  quantity_kg : ℚ
  purchase_date : Nat
  cost_per_kg : ℚ
  supplier : String
  notes : String
  deriving DecidableEq, Repr

/-- A row of the feed-efficiency report table (`app.py` lines 1907-1912):
the `feed_cost_per_litre` column exists only when `feed_inventory` is
non-empty. -/
structure EfficiencyRow where
  date : Nat
  feed_kg : ℚ
  milk_litres : ℚ
  feed_per_litre : ℚ
  feed_cost_per_litre : Option ℚ
  deriving DecidableEq, Repr

/-- pandas `Series.mean` over a NaN-free column: sum divided by length. -/
def meanQ (xs : List ℚ) : ℚ := xs.sum / xs.length

/-- Total feed quantity consumed on date `d`
(`feed_df.groupby('date')['quantity_kg'].sum()` at `app.py` line 1901). -/
def dailyFeedTotal (feed : List FeedConsumptionRow) (d : Nat) : ℚ :=
  ((feed.filter (fun r => r.date == d)).map (fun r => r.quantity_kg)).sum

/-- Total milk yield on date `d`
(`milk_df.groupby('date')['yield_litres'].sum()` at `app.py` line 1904). -/
def dailyMilkTotal (milk : List MilkRow) (d : Nat) : ℚ :=
  ((milk.filter (fun r => r.date == d)).map (fun r => r.yield_litres)).sum

/-- The feed-efficiency report (`app.py` lines 1901-1912): daily feed sums
inner-joined with daily milk sums on date; `feed_per_litre = feed_kg /
milk_litres`; when `feed_inventory` is non-empty, `feed_cost_per_litre =
feed_per_litre * mean(cost_per_kg over all inventory rows)`. -/
def feed_efficiency (feed : List FeedConsumptionRow) (milk : List MilkRow)
    (inv : List FeedInventoryRow) : List EfficiencyRow :=
  let daily_feed := groupSumBy (fun r => r.date) (fun r => r.quantity_kg) feed
  let daily_milk := groupSumBy (fun r => r.date) (fun r => r.yield_litres) milk
  let joined := innerJoinOnKey daily_feed daily_milk
  let avg_feed_cost : Option ℚ :=
    if inv.isEmpty then none else some (meanQ (inv.map (fun r => r.cost_per_kg)))
  joined.map (fun t =>
    { date := t.1
      feed_kg := t.2.1
      milk_litres := t.2.2
      feed_per_litre := t.2.1 / t.2.2
      feed_cost_per_litre := avg_feed_cost.map (fun c => t.2.1 / t.2.2 * c) })

/-- **C5.** The feed-efficiency report contains exactly one row per date
present in *both* the feed-consumption and milk tables (dates present in
only one are dropped, not zero-filled); on each such row `feed_kg` and
`milk_litres` are the per-date sums, `feed_per_litre = feed_kg /
milk_litres`, and — the inventory being non-empty — `feed_cost_per_litre =
feed_per_litre *` the unweighted mean of `cost_per_kg` over all
feed-inventory rows. -/
theorem feed_efficiency_spec (feed : List FeedConsumptionRow) (milk : List MilkRow)
    (inv : List FeedInventoryRow) (hinv : inv ≠ []) (e : EfficiencyRow) :
    e ∈ feed_efficiency feed milk inv ↔
      (e.date ∈ feed.map (fun r => r.date)
       ∧ e.date ∈ milk.map (fun r => r.date)
       ∧ e.feed_kg = dailyFeedTotal feed e.date
       ∧ e.milk_litres = dailyMilkTotal milk e.date
       ∧ e.feed_per_litre = e.feed_kg / e.milk_litres
       ∧ e.feed_cost_per_litre
           = some (e.feed_per_litre * meanQ (inv.map (fun r => r.cost_per_kg)))) := by
  have hne : inv.isEmpty = false := by
    cases inv with
    | nil => exact absurd rfl hinv
    | cons a l => rfl
  unfold feed_efficiency
  simp only [hne, Bool.false_eq_true, if_false]
  rw [List.mem_map]
  constructor
  · rintro ⟨t, ht, rfl⟩
    rw [mem_innerJoinOnKey] at ht
    obtain ⟨hl, hr⟩ := ht
    rw [mem_groupSumBy] at hl
    rw [lookup_groupSumBy] at hr
    by_cases hm : t.1 ∈ milk.map (fun r => r.date)
    · rw [if_pos hm] at hr
      simp only [Option.some_inj] at hr
      refine ⟨hl.1, hm, ?_, ?_, rfl, rfl⟩
      · simpa [dailyFeedTotal] using hl.2
      · simp [dailyMilkTotal, ← hr]
    · rw [if_neg hm] at hr
      exact absurd hr (by simp)
  · rintro ⟨h1, h2, h3, h4, h5, h6⟩
    refine ⟨(e.date, e.feed_kg, e.milk_litres), ?_, ?_⟩
    · rw [mem_innerJoinOnKey]
      constructor
      · rw [mem_groupSumBy]
        exact ⟨h1, by simpa [dailyFeedTotal] using h3⟩
      · rw [lookup_groupSumBy, if_pos h2]
        simp [dailyMilkTotal] at h4
        simp [h4]
    · cases e with
      | mk d fk ml fpl fcpl =>
        simp only at h5 h6 ⊢
        rw [← h5]
        simp only [Option.map_some']
        rw [← h6]

/-- Sample feed-consumption rows: 100 kg on 2024-01-01 and 80 kg on
2024-01-02 (the latter date has no milk record). -/
def sampleFeed : List FeedConsumptionRow :=
  [ { date := rataDie 2024 1 1, feed_name := "Hay", quantity_kg := 100,
      herd_size := 10, notes := "" },
    { date := rataDie 2024 1 2, feed_name := "Hay", quantity_kg := 80,
      herd_size := 10, notes := "" } ]

/-- Sample milk rows: 50 L on 2024-01-01 only. -/
def sampleMilk : List MilkRow :=
  [ { date := rataDie 2024 1 1, animal_id := "A1", session := "Morning",
      yield_litres := 50, usage := "Sold", price_per_litre := some 30,
      notes := "" } ]

/-- Sample feed inventory: one feed type at 10 per kg. -/
def sampleInv : List FeedInventoryRow :=
  [ { feed_name := "Hay", category := "Dry Fodder", quantity_kg := 500,
      purchase_date := rataDie 2023 12 1, cost_per_kg := 10, supplier := "S",
      notes := "" } ]

/-- **C5 witness.** Feed 100 kg and milk 50 L on 2024-01-01 give a report
row with `feed_per_litre = 2` and `feed_cost_per_litre = 20`; the date
2024-01-02, present in feed but absent from milk, yields no row (inner
join, not zero-filled). -/
theorem feed_efficiency_spec_witness :
    ({ date := rataDie 2024 1 1, feed_kg := 100, milk_litres := 50,
       feed_per_litre := 2, feed_cost_per_litre := some 20 } : EfficiencyRow)
        ∈ feed_efficiency sampleFeed sampleMilk sampleInv
  ∧ ({ date := rataDie 2024 1 2, feed_kg := 80, milk_litres := 0,
       feed_per_litre := 0, feed_cost_per_litre := none } : EfficiencyRow)
        ∉ feed_efficiency sampleFeed sampleMilk sampleInv :=
  by
  constructor
  · refine (feed_efficiency_spec sampleFeed sampleMilk sampleInv (by decide) _).mpr ?_
    have hd : (rataDie 2024 1 2 == rataDie 2024 1 1) = false := by decide
    refine ⟨by decide, by decide, ?_, ?_, by norm_num, ?_⟩
    · simp [dailyFeedTotal, sampleFeed, hd]
    · simp [dailyMilkTotal, sampleMilk]
    · simp [meanQ, sampleInv]
      norm_num
  · exact fun h => absurd
      ((feed_efficiency_spec sampleFeed sampleMilk sampleInv (by decide) _).mp h).2.1
      (by decide)

/-! ## Labour cost breakdown (`app.py` lines 1935-1954) -/

/-- A row of the `attendance` listing (`db_utils.py` lines 264-279). -/
structure AttendanceRow where
  date : Nat
  worker_id : String
  present : Bool
  tasks : String
  hours : ℚ
  notes : String
  deriving DecidableEq, Repr

/-- A row of the `workers` listing (`db_utils.py` lines 240-255). -/
structure WorkerRow where
  worker_id : String
  name : String
  category : String
  phone : String
  daily_wage : ℚ
  status : String
  deriving DecidableEq, Repr

/-- A row of the labour-cost-breakdown table (`app.py` lines 1942-1954):
the merged worker attributes are `NaN` (here `none`) when the attendance
row's `worker_id` has no matching worker. -/
structure LabourRow where
  worker_id : String
  days_worked : Nat
  total_hours : ℚ
  name : Option String
  category : Option String
  daily_wage : Option ℚ
  total_wages : Option ℚ
  deriving DecidableEq, Repr

/-- `attendance_df[attendance_df['present']]` (`app.py` line 1942). -/
def presentRows (att : List AttendanceRow) : List AttendanceRow :=
  att.filter (fun r => r.present)

/-- The worker matched by the `how='left'` merge on `worker_id`
(`app.py` lines 1948-1952); `worker_id` is a unique column, so at most one
row matches. -/
def worker_lookup (workers : List WorkerRow) (w : String) : Option WorkerRow :=
  workers.find? (fun k => k.worker_id == w)

/-- The labour-cost breakdown (`app.py` lines 1942-1954): group the
`present=True` attendance rows by worker; `days_worked` is the sum of the
boolean `present` column — the row count; `total_hours` sums `hours`;
worker attributes come from the left merge; `total_wages = days_worked *
daily_wage`. -/
def labour_cost_breakdown (att : List AttendanceRow) (workers : List WorkerRow) :
    List LabourRow :=
  (sortedKeys strLe ((presentRows att).map (fun r => r.worker_id))).map (fun w =>
    { worker_id := w
      days_worked := ((presentRows att).filter (fun r => r.worker_id == w)).length
      total_hours :=
        (((presentRows att).filter (fun r => r.worker_id == w)).map (fun r => r.hours)).sum
      name := (worker_lookup workers w).map (fun k => k.name)
      category := (worker_lookup workers w).map (fun k => k.category)
      daily_wage := (worker_lookup workers w).map (fun k => k.daily_wage)
      total_wages := (worker_lookup workers w).map
        (fun k => (((presentRows att).filter (fun r => r.worker_id == w)).length : ℚ)
          * k.daily_wage) })

/-- **C6.** For every worker row of the labour-cost breakdown (one whose
`worker_id` matches a registered worker), `days_worked` is the count of
that worker's attendance rows with `present = true`, and `total_wages =
days_worked * daily_wage`; and the `(worker_id, days_worked, total_wages)`
columns of the whole report are unchanged under any reassignment of the
`hours` field. -/
theorem labour_cost_spec (att : List AttendanceRow) (workers : List WorkerRow)
    (e : LabourRow) (wk : WorkerRow)
    (he : e ∈ labour_cost_breakdown att workers)
    (hw : worker_lookup workers e.worker_id = some wk) :
    e.days_worked
        = (att.filter (fun r => r.present && r.worker_id == e.worker_id)).length
  ∧ e.total_wages = some ((e.days_worked : ℚ) * wk.daily_wage)
  ∧ (∀ f : AttendanceRow → ℚ,
      (labour_cost_breakdown (att.map (fun r => { r with hours := f r })) workers).map
          (fun x => (x.worker_id, x.days_worked, x.total_wages))
        = (labour_cost_breakdown att workers).map
          (fun x => (x.worker_id, x.days_worked, x.total_wages))) := by
  have hcount : ∀ w : String,
      ((presentRows att).filter (fun r => r.worker_id == w)).length
        = (att.filter (fun r => r.present && r.worker_id == w)).length := by
    intro w
    unfold presentRows
    rw [List.filter_filter]
    exact congrArg List.length
      (List.filter_congr (fun a _ => Bool.and_comm _ _))
  unfold labour_cost_breakdown at he
  rw [List.mem_map] at he
  obtain ⟨w, hwmem, rfl⟩ := he
  simp only at hw ⊢
  refine ⟨hcount w, by rw [hw]; rfl, ?_⟩
  intro f
  unfold labour_cost_breakdown presentRows
  rw [List.filter_map, List.map_map, List.map_map, List.map_map]
  have hpred : (fun r : AttendanceRow => r.present)
      ∘ (fun r : AttendanceRow => { r with hours := f r }) = fun r => r.present := rfl
  rw [hpred]
  apply List.map_congr_left
  intro x _
  have hfil : ∀ w : String,
      (((att.filter (fun r => r.present)).map (fun r => { r with hours := f r })).filter
          (fun r => r.worker_id == w))
        = ((att.filter (fun r => r.present)).filter (fun r => r.worker_id == w)).map
            (fun r => { r with hours := f r }) := by
    intro w
    rw [List.filter_map]
    rfl
  simp only [Function.comp, hfil, List.length_map]

/-- Sample worker: daily wage 500. -/
def sampleWorker : WorkerRow :=
  { worker_id := "W1", name := "Ravi", category := "Milking", phone := "98",
    daily_wage := 500, status := "Active" }

/-- Sample workers listing. -/
def sampleWorkers : List WorkerRow := [sampleWorker]

/-- Sample attendance: three `present = true` rows with different `hours`
values and one absent row. -/
def sampleAttendance : List AttendanceRow :=
  [ { date := rataDie 2024 1 1, worker_id := "W1", present := true,
      tasks := "Milking", hours := 8, notes := "" },
    { date := rataDie 2024 1 2, worker_id := "W1", present := true,
      tasks := "Feeding", hours := 4, notes := "" },
    { date := rataDie 2024 1 3, worker_id := "W1", present := false,
      tasks := "", hours := 0, notes := "" },
    { date := rataDie 2024 1 4, worker_id := "W1", present := true,
      tasks := "Cleaning", hours := 12, notes := "" } ]

/-- **C6 witness.** The worker with `daily_wage = 500` and three
`present = true` attendance rows (of hours 8, 4 and 12) gets
`days_worked = 3` and `total_wages = 1500`. -/
theorem labour_cost_spec_witness :
    ((labour_cost_breakdown sampleAttendance sampleWorkers).get
        ⟨0, by decide⟩).days_worked = 3
  ∧ ((labour_cost_breakdown sampleAttendance sampleWorkers).get
        ⟨0, by decide⟩).total_wages = some 1500 := by
  have he : (labour_cost_breakdown sampleAttendance sampleWorkers).get ⟨0, by decide⟩
      ∈ labour_cost_breakdown sampleAttendance sampleWorkers := List.get_mem _ 0 (by decide)
  have hw : worker_lookup sampleWorkers
      ((labour_cost_breakdown sampleAttendance sampleWorkers).get
        ⟨0, by decide⟩).worker_id = some sampleWorker := rfl
  have h := labour_cost_spec sampleAttendance sampleWorkers _ sampleWorker he hw
  have hd : ((labour_cost_breakdown sampleAttendance sampleWorkers).get
      ⟨0, by decide⟩).days_worked = 3 := by
    rw [h.1]
    rfl
  refine ⟨hd, ?_⟩
  rw [h.2.1, hd]
  norm_num [sampleWorker]

/-! ## Delimited export and re-parse (`app.py` lines 257-263 and 1846-1852)

The listings are exported with pandas `to_csv(index=False)`: comma
delimiter, one `\n`-terminated line per row starting with the header row,
minimal quoting (a field is wrapped in double quotes exactly when it
contains a comma, a double quote, or a line break, with embedded double
quotes doubled). A table is a list of rows of string cells, the header
being row 0. -/

/-- Characters that force quoting under pandas' minimal-quoting rule. -/
def specialChar (c : Char) : Bool :=
  c = ',' || c = '"' || c = '\n' || c = '\r'

/-- Double every double-quote character (the standard escape inside a
quoted field). -/
def escq : List Char → List Char
  | [] => []
  | c :: cs => if c = '"' then '"' :: '"' :: escq cs else c :: escq cs

/-- Serialize one cell: quote it exactly when it contains a special
character, doubling embedded quotes. -/
def encodeField (s : String) : List Char :=
  if s.data.any specialChar then '"' :: (escq s.data ++ ['"']) else s.data

/-- Serialize one row: cells joined by commas. -/
def encodeRow : List String → List Char
  | [] => []
  | [s] => encodeField s
  | s :: s' :: rest => encodeField s ++ ',' :: encodeRow (s' :: rest)

/-- Serialize a table (header row first): each row followed by `\n`. -/
def encodeTable : List (List String) → List Char
  | [] => []
  | r :: rs => encodeRow r ++ '\n' :: encodeTable rs

/-- Parser position relative to quoting. -/
inductive CsvState where
  /-- Inside an unquoted field (or at a field boundary). -/
  | field
  /-- Inside a quoted field. -/
  | quoted
  /-- Just after a closing double quote inside a quoted field (a second
  double quote here means an escaped quote). -/
  | afterQuote
  deriving DecidableEq, Repr

/-- Modelled from the spec: re-parsing the exported file ("standard quoting
for embedded commas/newlines"); no parser exists in the source. One step
per input character; `cur` is the current cell (reversed), `row` the
finished cells of the current record (reversed), `acc` the finished
records (reversed). -/
def parseAux : List Char → CsvState → List Char → List String → List (List String) →
    List (List String)
  | [], _, cur, row, acc =>
      match cur, row with
      | [], [] => acc.reverse
      | _, _ => ((String.mk cur.reverse :: row).reverse :: acc).reverse
  | c :: cs, .field, cur, row, acc =>
      if c = '"' then parseAux cs .quoted cur row acc
      else if c = ',' then parseAux cs .field [] (String.mk cur.reverse :: row) acc
      else if c = '\n' then
        parseAux cs .field [] [] ((String.mk cur.reverse :: row).reverse :: acc)
      else parseAux cs .field (c :: cur) row acc
  | c :: cs, .quoted, cur, row, acc =>
      if c = '"' then parseAux cs .afterQuote cur row acc
      else parseAux cs .quoted (c :: cur) row acc
  | c :: cs, .afterQuote, cur, row, acc =>
      if c = '"' then parseAux cs .quoted ('"' :: cur) row acc
      else if c = ',' then parseAux cs .field [] (String.mk cur.reverse :: row) acc
      else if c = '\n' then
        parseAux cs .field [] [] ((String.mk cur.reverse :: row).reverse :: acc)
      else parseAux cs .field (c :: cur) row acc

/-- Modelled from the spec: parse a comma-separated file into its table of
string cells. -/
def parseCSV (input : List Char) : List (List String) :=
  parseAux input .field [] [] []

theorem string_mk_data (s : String) : String.mk s.data = s := by
  cases s
  rfl

theorem parseAux_field_quote (cs : List Char) (cur : List Char) (row : List String)
    (acc : List (List String)) :
    parseAux ('"' :: cs) .field cur row acc = parseAux cs .quoted cur row acc := rfl

theorem parseAux_field_other (c : Char) (h1 : ¬ c = '"') (h2 : ¬ c = ',')
    (h3 : ¬ c = '\n') (cs : List Char) (cur : List Char) (row : List String)
    (acc : List (List String)) :
    parseAux (c :: cs) .field cur row acc = parseAux cs .field (c :: cur) row acc := by
  simp [parseAux, h1, h2, h3]

theorem parseAux_quoted_quote (cs : List Char) (cur : List Char) (row : List String)
    (acc : List (List String)) :
    parseAux ('"' :: cs) .quoted cur row acc = parseAux cs .afterQuote cur row acc := rfl

theorem parseAux_quoted_other (c : Char) (h : ¬ c = '"') (cs : List Char)
    (cur : List Char) (row : List String) (acc : List (List String)) :
    parseAux (c :: cs) .quoted cur row acc = parseAux cs .quoted (c :: cur) row acc := by
  simp [parseAux, h]

theorem parseAux_afterQuote_quote (cs : List Char) (cur : List Char)
    (row : List String) (acc : List (List String)) :
    parseAux ('"' :: cs) .afterQuote cur row acc
      = parseAux cs .quoted ('"' :: cur) row acc := rfl

theorem parseAux_afterQuote_comma (cs : List Char) (cur : List Char)
    (row : List String) (acc : List (List String)) :
    parseAux (',' :: cs) .afterQuote cur row acc
      = parseAux cs .field [] (String.mk cur.reverse :: row) acc := rfl

theorem parseAux_afterQuote_newline (cs : List Char) (cur : List Char)
    (row : List String) (acc : List (List String)) :
    parseAux ('\n' :: cs) .afterQuote cur row acc
      = parseAux cs .field [] [] ((String.mk cur.reverse :: row).reverse :: acc) := rfl

theorem parseAux_field_comma (cs : List Char) (cur : List Char) (row : List String)
    (acc : List (List String)) :
    parseAux (',' :: cs) .field cur row acc
      = parseAux cs .field [] (String.mk cur.reverse :: row) acc := rfl

theorem parseAux_field_newline (cs : List Char) (cur : List Char) (row : List String)
    (acc : List (List String)) :
    parseAux ('\n' :: cs) .field cur row acc
      = parseAux cs .field [] [] ((String.mk cur.reverse :: row).reverse :: acc) := rfl

/-- Consuming the escaped body of a quoted cell plus its closing quote. -/
theorem parse_quoted_escq (l : List Char) (rest : List Char) (cur : List Char)
    (row : List String) (acc : List (List String)) :
    parseAux (escq l ++ '"' :: rest) .quoted cur row acc
      = parseAux rest .afterQuote (l.reverse ++ cur) row acc := by
  induction l generalizing cur with
  | nil =>
    rw [show escq [] ++ '"' :: rest = '"' :: rest from rfl, parseAux_quoted_quote]
    simp
  | cons c cs ih =>
    by_cases hc : c = '"'
    · subst hc
      rw [show escq ('"' :: cs) ++ '"' :: rest
            = '"' :: '"' :: (escq cs ++ '"' :: rest) from by simp [escq]]
      rw [parseAux_quoted_quote, parseAux_afterQuote_quote, ih]
      simp
    · rw [show escq (c :: cs) ++ '"' :: rest
            = c :: (escq cs ++ '"' :: rest) from by simp [escq, hc]]
      rw [parseAux_quoted_other c hc, ih]
      simp

/-- Consuming an unquoted cell body (no special characters). -/
theorem parse_unquoted (l : List Char) (h : ∀ c ∈ l, specialChar c = false)
    (rest : List Char) (cur : List Char) (row : List String)
    (acc : List (List String)) :
    parseAux (l ++ rest) .field cur row acc
      = parseAux rest .field (l.reverse ++ cur) row acc := by
  induction l generalizing cur with
  | nil => simp
  | cons c cs ih =>
    have hc := h c (List.mem_cons_self c cs)
    simp only [specialChar, Bool.or_eq_false_iff, decide_eq_false_iff_not] at hc
    obtain ⟨⟨⟨h1, h2⟩, h3⟩, h4⟩ := hc
    rw [List.cons_append, parseAux_field_other c h2 h1 h3]
    rw [ih (fun x hx => h x (List.mem_cons_of_mem c hx))]
    simp

/-- Consuming one encoded cell followed by a comma. -/
theorem parse_field_comma (s : String) (rest : List Char) (row : List String)
    (acc : List (List String)) :
    parseAux (encodeField s ++ ',' :: rest) .field [] row acc
      = parseAux rest .field [] (s :: row) acc := by
  by_cases hq : s.data.any specialChar
  · rw [show encodeField s ++ ',' :: rest
        = '"' :: (escq s.data ++ '"' :: ',' :: rest) from by simp [encodeField, hq]]
    rw [parseAux_field_quote, parse_quoted_escq, parseAux_afterQuote_comma]
    simp [string_mk_data]
  · have hns : ∀ c ∈ s.data, specialChar c = false := by
      intro c hcm
      cases hsp : specialChar c
      · rfl
      · exact absurd (List.any_eq_true.mpr ⟨c, hcm, hsp⟩) hq
    rw [show encodeField s ++ ',' :: rest = s.data ++ ',' :: rest from by
      simp [encodeField, hq]]
    rw [parse_unquoted s.data hns, parseAux_field_comma]
    simp [string_mk_data]

/-- Consuming one encoded cell followed by a newline (record end). -/
theorem parse_field_newline (s : String) (rest : List Char) (row : List String)
    (acc : List (List String)) :
    parseAux (encodeField s ++ '\n' :: rest) .field [] row acc
      = parseAux rest .field [] [] ((s :: row).reverse :: acc) := by
  by_cases hq : s.data.any specialChar
  · rw [show encodeField s ++ '\n' :: rest
        = '"' :: (escq s.data ++ '"' :: '\n' :: rest) from by simp [encodeField, hq]]
    rw [parseAux_field_quote, parse_quoted_escq, parseAux_afterQuote_newline]
    simp [string_mk_data]
  · have hns : ∀ c ∈ s.data, specialChar c = false := by
      intro c hcm
      cases hsp : specialChar c
      · rfl
      · exact absurd (List.any_eq_true.mpr ⟨c, hcm, hsp⟩) hq
    rw [show encodeField s ++ '\n' :: rest = s.data ++ '\n' :: rest from by
      simp [encodeField, hq]]
    rw [parse_unquoted s.data hns, parseAux_field_newline]
    simp [string_mk_data]

/-- Consuming one encoded record plus its terminating newline. -/
theorem parse_encodeRow (r : List String) (hr : r ≠ []) (rest : List Char)
    (row : List String) (acc : List (List String)) :
    parseAux (encodeRow r ++ '\n' :: rest) .field [] row acc
      = parseAux rest .field [] [] ((row.reverse ++ r) :: acc) := by
  induction r generalizing row with
  | nil => exact absurd rfl hr
  | cons s tl ih =>
    cases tl with
    | nil =>
      rw [encodeRow, parse_field_newline]
      simp
    | cons s' tl' =>
      rw [encodeRow, List.append_assoc, List.cons_append, parse_field_comma]
      rw [ih (by simp)]
      simp

/-- Consuming a whole encoded table. -/
theorem parse_encodeTable (t : List (List String)) (h : ∀ r ∈ t, r ≠ [])
    (acc : List (List String)) :
    parseAux (encodeTable t) .field [] [] acc = acc.reverse ++ t := by
  induction t generalizing acc with
  | nil => simp [encodeTable, parseAux]
  | cons r rs ih =>
    rw [encodeTable, parse_encodeRow r (h r (List.mem_cons_self r rs))]
    rw [ih (fun x hx => h x (List.mem_cons_of_mem r hx))]
    simp

/-- **C9.** Serializing any listing (a non-degenerate table: the header and
every row have at least one cell) to the comma-separated export format —
header first, comma delimiter, minimal standard quoting — and re-parsing
the result yields exactly the original table. -/
theorem csv_round_trip (header : List String) (rows : List (List String))
    (hh : header ≠ []) (hr : ∀ r ∈ rows, r ≠ []) :
    parseCSV (encodeTable (header :: rows)) = header :: rows := by
  unfold parseCSV
  rw [parse_encodeTable (header :: rows) ?_ []]
  · simp
  · intro r hrm
    rcases List.mem_cons.mp hrm with h | h
    · rw [h]; exact hh
    · exact hr r h

/-- A concrete listing with embedded commas, quotes and a newline. -/
def sampleTable : List (List String) :=
  [ ["animal_id", "name", "notes"],
    ["A1", "Ganga", "likes \"green\" fodder, hay"],
    ["A2", "Yamuna", "line one\nline two"] ]

/-- **C9 witness.** The sample listing — with an embedded quote, comma and
newline — round-trips through the export format unchanged. -/
theorem csv_round_trip_witness :
    (["animal_id", "name", "notes"] : List String) ≠ []
  ∧ parseCSV (encodeTable sampleTable) = sampleTable :=
  ⟨by decide,
   csv_round_trip ["animal_id", "name", "notes"]
     [["A1", "Ganga", "likes \"green\" fodder, hay"],
      ["A2", "Yamuna", "line one\nline two"]]
     (by decide) (by decide)⟩

end Farm
